import Mathlib

/-!
# ocsql: `RecordStats` (dbstats_go1.11.go)

A shallow embedding of `RecordStats`, the periodic sampler that reads
`sql.DBStats` snapshots and records eight measurements per tick.

Modelling conventions.

* Go `int64` values (and `time.Duration`, an `int64` count of nanoseconds)
  are integers; an `int64` subtraction wraps explicitly (`sub64`).
* A `float64` is modelled by the rational number it stands for (`finite`),
  or is `nonFinite` (an infinity or NaN, the result of dividing by zero).
  Rounding of the conversions and of the quotient is abstracted away.
* The goroutine of `RecordStats` is a transition system: one transition per
  handled `select` case.  The values received from `db.Stats()` come with the
  event; the calls of `stats.Record` are appended to a list.
-/

namespace Ocsql

/-! ## Machine integers and durations -/

/-- Two's-complement wrap of an integer into the `int64` range. -/
def wrap64 (x : Int) : Int := (x + 2 ^ 63) % 2 ^ 64 - 2 ^ 63

/-- Go `a - b` on `int64` operands. -/
def sub64 (a b : Int) : Int := wrap64 (a - b)

/-- Go `a + b` on `int64` operands. -/
def add64 (a b : Int) : Int := wrap64 (a + b)

/-- Membership in the `int64` range. -/
def inInt64 (x : Int) : Prop := -(2 ^ 63) ≤ x ∧ x < 2 ^ 63

instance (x : Int) : Decidable (inInt64 x) := by
  unfold inInt64; exact inferInstance

/-- Go `time.Duration`: an `int64` nanosecond count. -/
abbrev Duration := Int

/-- Go `Duration.Nanoseconds`: `int64(d)`. -/
def Duration.Nanoseconds (d : Duration) : Int := d

/-- Go `Duration.Milliseconds`: `int64(d) / 1e6`, an integer division, which
in Go truncates toward zero. -/
def Duration.Milliseconds (d : Duration) : Int := Int.tdiv d 1000000

/-! ## float64 -/

/-- A `float64` value: the rational it stands for, or a non-finite value. -/
inductive Float64 where
  | finite (q : ℚ)
  | nonFinite
  deriving DecidableEq

/-- Go `float64(i)` for an `int64` value `i`. -/
def Float64.ofInt64 (i : Int) : Float64 := Float64.finite (i : ℚ)

/-- Go `a / b` on `float64` operands: dividing by zero yields no finite value. -/
def Float64.div : Float64 → Float64 → Float64
  | Float64.finite a, Float64.finite b =>
      if b = 0 then Float64.nonFinite else Float64.finite (a / b)
  | _, _ => Float64.nonFinite

/-- The zero value of a `float64` variable (`var x float64`). -/
def Float64.zero : Float64 := Float64.finite 0

/-- The untyped constant `1e6` used as a `float64`. -/
def Float64.e6 : Float64 := Float64.finite 1000000

/-! ## Snapshots, measures, measurements -/

/-- The fields of `sql.DBStats` that `RecordStats` reads.  `OpenConnections`,
`InUse` and `Idle` are Go `int`; `WaitCount`, `MaxIdleClosed` and
`MaxLifetimeClosed` are `int64`; `WaitDuration` is a `time.Duration`. -/
structure DBStats where
  OpenConnections : Int
  InUse : Int
  Idle : Int
  WaitCount : Int
  WaitDuration : Duration
  MaxIdleClosed : Int
  MaxLifetimeClosed : Int
  deriving DecidableEq

/-- Modelled from the spec: the eight measures named in the `stats.Record`
call; their declarations are not part of dbstats_go1.11.go. -/
inductive Measure where
  | MeasureOpenConnections
  | MeasureIdleConnections
  | MeasureActiveConnections
  | MeasureWaitCount
  | MeasureWaitDuration
  | MeasureAvgWaitPerConnection
  | MeasureIdleClosed
  | MeasureLifetimeClosed
  deriving DecidableEq

/-- A `stats.Measurement`: the result of `m.M(v)` for an int64 measure or a
float64 measure, as the argument types of the call sites fix it. -/
inductive Measurement where
  | int64 (m : Measure) (v : Int)
  | float64 (m : Measure) (v : Float64)
  deriving DecidableEq

/-! ## One tick -/

/-- The variables `lastWaitCount` and `lastWaitDuration` (lines 24-27). -/
structure SamplerState where
  lastWaitCount : Int
  lastWaitDuration : Duration
  deriving DecidableEq

/-- The zero values the two variables are declared with. -/
def SamplerState.init : SamplerState := ⟨0, 0⟩

/-- Lines 38-41.  The first component is the value of `avgWaitPerConnection`;
the second lists the divisors of the float64 divisions that were executed. -/
def avgWaitPerConnection (lastWindowWaitCount : Int) (lastWindowWaitDuration : Duration) :
    Float64 × List Float64 :=
  if lastWindowWaitCount > 0 then
    (Float64.div (Float64.ofInt64 (Duration.Milliseconds lastWindowWaitDuration))
        (Float64.ofInt64 lastWindowWaitCount),
      [Float64.ofInt64 lastWindowWaitCount])
  else
    (Float64.zero, [])

/-- What one execution of the `case <-ticker.C` body produces. -/
structure TickResult where
  /-- The local `lastWindowWaitCount` (line 35). -/
  lastWindowWaitCount : Int
  /-- The local `lastWindowWaitDuration` (line 36). -/
  lastWindowWaitDuration : Duration
  /-- The local `avgWaitPerConnection` (lines 38-41). -/
  avgWaitPerConnection : Float64
  /-- The arguments of every `stats.Record` call of the tick, in order. -/
  records : List (List Measurement)
  /-- The variables after lines 54-55. -/
  state : SamplerState
  /-- The divisors of the float64 divisions executed, in order. -/
  divisors : List Float64

/-- The body of `case <-ticker.C` (lines 33-55) on the snapshot `dbStats`.
The conversion `int64(x)` of a Go `int` keeps the value. -/
def tick (st : SamplerState) (dbStats : DBStats) : TickResult :=
  let lastWindowWaitCount := sub64 dbStats.WaitCount st.lastWaitCount
  let lastWindowWaitDuration := sub64 dbStats.WaitDuration st.lastWaitDuration
  let avg := avgWaitPerConnection lastWindowWaitCount lastWindowWaitDuration
  { lastWindowWaitCount := lastWindowWaitCount
    lastWindowWaitDuration := lastWindowWaitDuration
    avgWaitPerConnection := avg.1
    records :=
      [[Measurement.int64 Measure.MeasureOpenConnections dbStats.OpenConnections,
        Measurement.int64 Measure.MeasureIdleConnections dbStats.Idle,
        Measurement.int64 Measure.MeasureActiveConnections dbStats.InUse,
        Measurement.int64 Measure.MeasureWaitCount dbStats.WaitCount,
        Measurement.float64 Measure.MeasureWaitDuration
          (Float64.div (Float64.ofInt64 (Duration.Nanoseconds dbStats.WaitDuration)) Float64.e6),
        Measurement.float64 Measure.MeasureAvgWaitPerConnection avg.1,
        Measurement.int64 Measure.MeasureIdleClosed dbStats.MaxIdleClosed,
        Measurement.int64 Measure.MeasureLifetimeClosed dbStats.MaxLifetimeClosed]]
    state := ⟨dbStats.WaitCount, dbStats.WaitDuration⟩
    divisors := avg.2 ++ [Float64.e6] }

/-- Consecutive ticks over a list of snapshots: the results, in order. -/
def ticks : SamplerState → List DBStats → List TickResult
  | _, [] => []
  | st, s :: rest => tick st s :: ticks (tick st s).state rest

/-! ## The stop function -/

/-- A run-time panic. -/
inductive Panic where
  | closeOfClosedChannel
  deriving DecidableEq

/-- The channel `done`: nothing is ever sent on it, so its state is whether
it has been closed; `closes` counts the executed `close` calls. -/
structure Chan where
  closed : Bool
  closes : Nat
  deriving DecidableEq

/-- Go `close(ch)`: closing a closed channel panics. -/
def Chan.close (ch : Chan) : Except Panic Chan :=
  if ch.closed then Except.error Panic.closeOfClosedChannel
  else Except.ok { closed := true, closes := ch.closes + 1 }

/-- Go `sync.Once`. -/
structure Once where
  done : Bool
  deriving DecidableEq

/-- Go `once.Do(f)`: runs `f` unless an earlier call has run it. -/
def Once.Do {σ : Type} (o : Once) (f : σ → Except Panic σ) (s : σ) : Except Panic (Once × σ) :=
  if o.done then Except.ok (o, s)
  else
    match f s with
    | Except.ok s' => Except.ok ({ done := true }, s')
    | Except.error e => Except.error e

/-- What the stop function acts on: `closeOnce` and `done` (lines 18, 21). -/
structure StopState where
  closeOnce : Once
  done : Chan
  deriving DecidableEq

/-- The values `closeOnce` and `done` are created with. -/
def StopState.init : StopState := { closeOnce := { done := false }, done := { closed := false, closes := 0 } }

/-- The returned `fnStop` (lines 63-67): `closeOnce.Do(func() { close(done) })`. -/
def fnStop (s : StopState) : Except Panic StopState :=
  match s.closeOnce.Do Chan.close s.done with
  | Except.ok (o, ch) => Except.ok { closeOnce := o, done := ch }
  | Except.error e => Except.error e

/-- The stop function invoked `n` times in sequence. -/
def fnStopTimes : Nat → StopState → Except Panic StopState
  | 0, s => Except.ok s
  | n + 1, s =>
    match fnStop s with
    | Except.ok s' => fnStopTimes n s'
    | Except.error e => Except.error e

/-! ## The goroutine -/

/-- Whether the goroutine is still in its `for` loop or has returned. -/
inductive Phase where
  | Running
  | Stopped
  deriving DecidableEq

/-- The goroutine of lines 29-61 with the sink it records to. -/
structure Goroutine where
  phase : Phase
  vars : SamplerState
  tickerStopped : Bool
  /-- Every `stats.Record` call made so far, oldest first. -/
  records : List (List Measurement)
  deriving DecidableEq

/-- The goroutine when it is started. -/
def Goroutine.init : Goroutine :=
  { phase := Phase.Running, vars := SamplerState.init, tickerStopped := false, records := [] }

/-- The `select` case the loop handles: a tick, with the snapshot that
`db.Stats()` then returns, or the receive from `done`. -/
inductive Event where
  | tickerC (dbStats : DBStats)
  | done

/-- One iteration of the `for`/`select` loop handling `ev`; `none` when there
is no such transition (the goroutine has returned, or `done` is not closed
and so its case is not ready). -/
def Goroutine.handle (done : Chan) (g : Goroutine) (ev : Event) : Option Goroutine :=
  match g.phase with
  | Phase.Stopped => none
  | Phase.Running =>
    match ev with
    | Event.tickerC dbStats =>
      let t := tick g.vars dbStats
      some { g with vars := t.state, records := g.records ++ t.records }
    | Event.done =>
      if done.closed then some { g with phase := Phase.Stopped, tickerStopped := true }
      else none

/-- The sampler: the stop function's state and the goroutine. -/
structure Sampler where
  stop : StopState
  loop : Goroutine
  deriving DecidableEq

/-- The sampler right after `RecordStats` returns. -/
def Sampler.init : Sampler := { stop := StopState.init, loop := Goroutine.init }

/-- One step of the sampler: a caller invokes the stop function (which does
not panic), or the goroutine handles a `select` case. -/
inductive Step : Sampler → Sampler → Prop where
  | callStop (s : Sampler) (st : StopState) (h : fnStop s.stop = Except.ok st) :
      Step s { s with stop := st }
  | select (s : Sampler) (ev : Event) (g : Goroutine)
      (h : s.loop.handle s.stop.done ev = some g) :
      Step s { s with loop := g }

/-- Reachability by any number of steps. -/
def Reaches (s s' : Sampler) : Prop := Relation.ReflTransGen Step s s'

/-! ## Definitions that follow the specification's words -/

/-- The average as the specification's data model words it first: the window
wait duration in fractional milliseconds divided by the window wait count when
that count is positive, else zero. -/
def avgFractional (wc : Int) (wd : Duration) : ℚ :=
  if wc > 0 then ((wd : ℚ) / 1000000) / (wc : ℚ) else 0

/-- The reference definition of the average: whole milliseconds (the
nanosecond count divided by 1,000,000, truncating toward zero) divided by the
window wait count when that count is positive, else zero. -/
def avgReference (wc : Int) (wd : Duration) : ℚ :=
  if wc > 0 then ((Int.tdiv wd 1000000 : Int) : ℚ) / (wc : ℚ) else 0

/-- A snapshot of cumulative counters: the wait count and the wait duration
are non-negative `int64` values. -/
def DBStats.cumulative (s : DBStats) : Prop :=
  0 ≤ s.WaitCount ∧ s.WaitCount < 2 ^ 63 ∧ 0 ≤ s.WaitDuration ∧ s.WaitDuration < 2 ^ 63

instance (s : DBStats) : Decidable s.cumulative := by
  unfold DBStats.cumulative; exact inferInstance

/-- The wait count and the wait duration do not decrease from `a` to `b`. -/
def DBStats.le (a b : DBStats) : Prop :=
  a.WaitCount ≤ b.WaitCount ∧ a.WaitDuration ≤ b.WaitDuration

instance (a b : DBStats) : Decidable (a.le b) := by
  unfold DBStats.le; exact inferInstance

/-- The window wait counts of a list of tick results added up as Go adds
`int64` values. -/
def sumWindowWaitCounts64 (ts : List TickResult) : Int :=
  (ts.map TickResult.lastWindowWaitCount).foldl add64 0

/-- The window wait counts of a list of tick results added up as integers. -/
def sumWindowWaitCounts (ts : List TickResult) : Int :=
  (ts.map TickResult.lastWindowWaitCount).sum

/-- The snapshot with the given wait count and wait duration and no connections. -/
def snapshot (waitCount : Int) (waitDuration : Duration) : DBStats :=
  { OpenConnections := 0, InUse := 0, Idle := 0, WaitCount := waitCount,
    WaitDuration := waitDuration, MaxIdleClosed := 0, MaxLifetimeClosed := 0 }

/-- One millisecond as a `time.Duration`. -/
def Duration.Millisecond : Duration := 1000000

/-! ## Arithmetic of the machine integers -/

theorem wrap64_of_inInt64 {x : Int} (h : inInt64 x) : wrap64 x = x := by
  unfold inInt64 at h
  unfold wrap64
  have h1 : (x + 2 ^ 63) % 2 ^ 64 = x + 2 ^ 63 := by
    apply Int.emod_eq_of_lt <;> omega
  omega

theorem wrap64_inInt64 (x : Int) : inInt64 (wrap64 x) := by
  unfold inInt64 wrap64
  have h1 : 0 ≤ (x + 2 ^ 63) % 2 ^ 64 := Int.emod_nonneg _ (by norm_num)
  have h2 : (x + 2 ^ 63) % 2 ^ 64 < 2 ^ 64 := Int.emod_lt_of_pos _ (by norm_num)
  constructor <;> omega

theorem wrap64_add_wrap64 (a b : Int) : wrap64 (wrap64 a + b) = wrap64 (a + b) := by
  unfold wrap64
  have h : (a + 2 ^ 63) % 2 ^ 64 = (a + 2 ^ 63) - 2 ^ 64 * ((a + 2 ^ 63) / 2 ^ 64) := by
    have := Int.emod_add_ediv (a + 2 ^ 63) (2 ^ 64)
    omega
  rw [h]
  have e : (a + 2 ^ 63 - 2 ^ 64 * ((a + 2 ^ 63) / 2 ^ 64) - 2 ^ 63 + b + 2 ^ 63 : Int)
      = (a + b + 2 ^ 63) + 2 ^ 64 * (-((a + 2 ^ 63) / 2 ^ 64)) := by ring
  rw [e, Int.add_mul_emod_self_left]

theorem sub64_self (a : Int) : sub64 a a = 0 := by
  unfold sub64 wrap64
  simp

theorem sub64_eq_sub {a b : Int} (hb : 0 ≤ b) (hab : b ≤ a) (ha : a < 2 ^ 63) :
    sub64 a b = a - b := by
  unfold sub64
  apply wrap64_of_inInt64
  unfold inInt64
  constructor <;> omega

/-! ## The average -/

theorem milliseconds_eq_zero {d : Int} (h1 : -1000000 < d) (h2 : d < 1000000) :
    Duration.Milliseconds d = 0 := by
  unfold Duration.Milliseconds
  rcases le_or_lt 0 d with h | h
  · exact Int.tdiv_eq_zero_of_lt h h2
  · have h3 : Int.tdiv (-d) 1000000 = 0 := Int.tdiv_eq_zero_of_lt (by omega) (by omega)
    rw [Int.neg_tdiv] at h3
    omega

theorem milliseconds_neg_iff (d : Int) :
    Duration.Milliseconds d < 0 ↔ d ≤ -1000000 := by
  unfold Duration.Milliseconds
  constructor
  · intro h
    by_contra hc
    have hd : -1000000 < d := by omega
    rcases le_or_lt 0 d with h0 | h0
    · have := Int.tdiv_nonneg h0 (by norm_num : (0 : Int) ≤ 1000000)
      omega
    · have h3 : Int.tdiv (-d) 1000000 = 0 := Int.tdiv_eq_zero_of_lt (by omega) (by omega)
      rw [Int.neg_tdiv] at h3
      omega
  · intro h
    have h1 : Int.tdiv (-d) 1000000 = (-d) / 1000000 :=
      Int.tdiv_eq_ediv (by omega) (by norm_num)
    rw [Int.neg_tdiv] at h1
    have h2 : (1 : Int) ≤ (-d) / 1000000 := by
      have := Int.ediv_le_ediv (by norm_num : (0 : Int) < 1000000) (by omega : (1000000 : Int) ≤ -d)
      simpa using this
    omega

theorem avgWaitPerConnection_value (wc : Int) (wd : Duration) :
    (avgWaitPerConnection wc wd).1 = Float64.finite (avgReference wc wd) := by
  unfold avgWaitPerConnection avgReference
  by_cases h : wc > 0
  · have hq : (wc : ℚ) ≠ 0 := by
      have : wc ≠ 0 := by omega
      exact_mod_cast this
    simp [h, Float64.div, Float64.ofInt64, Duration.Milliseconds, hq]
  · simp [h, Float64.zero]

/-! ## The tick: claims -/

/-- C1 (the code at a failing input): from the initial variables, on a
snapshot with wait count 1 and wait duration 1,500,000 ns, the window wait
count is 1 and the window wait duration 1,500,000 ns; the tick emits the
average 1, whereas the window wait duration in fractional milliseconds
divided by the window wait count is 3/2, a different value. -/
theorem C1_average_loses_fraction_of_millisecond :
    (tick SamplerState.init (snapshot 1 1500000)).lastWindowWaitCount = 1 ∧
    (tick SamplerState.init (snapshot 1 1500000)).lastWindowWaitDuration = 1500000 ∧
    (tick SamplerState.init (snapshot 1 1500000)).avgWaitPerConnection = Float64.finite 1 ∧
    (tick SamplerState.init (snapshot 1 1500000)).records.map (fun r => r[5]?) =
      [some (Measurement.float64 Measure.MeasureAvgWaitPerConnection (Float64.finite 1))] ∧
    avgFractional 1 1500000 = 3 / 2 ∧
    (tick SamplerState.init (snapshot 1 1500000)).avgWaitPerConnection ≠
      Float64.finite (avgFractional 1 1500000) := by
  have hv : (tick SamplerState.init (snapshot 1 1500000)).avgWaitPerConnection
      = Float64.finite 1 := by
    rw [show (tick SamplerState.init (snapshot 1 1500000)).avgWaitPerConnection
        = (avgWaitPerConnection 1 1500000).1 from rfl, avgWaitPerConnection_value]
    have : Int.tdiv 1500000 1000000 = 1 := by decide
    simp [avgReference, this]
  have hf : avgFractional 1 1500000 = 3 / 2 := by norm_num [avgFractional]
  refine ⟨by decide, by decide, ?_, ?_, ?_, ?_⟩
  rotate_right
  · rw [hv, hf]
    intro h
    injection h with h
    norm_num at h
  · rw [show (tick SamplerState.init (snapshot 1 1500000)).avgWaitPerConnection
        = (avgWaitPerConnection 1 1500000).1 from rfl, avgWaitPerConnection_value]
    have : Int.tdiv 1500000 1000000 = 1 := by decide
    simp [avgReference, this]
  · have hv : (avgWaitPerConnection 1 1500000).1 = Float64.finite 1 := by
      rw [avgWaitPerConnection_value]
      have : Int.tdiv 1500000 1000000 = 1 := by decide
      simp [avgReference, this]
    show [some (Measurement.float64 Measure.MeasureAvgWaitPerConnection
      (avgWaitPerConnection 1 1500000).1)] = _
    rw [hv]
  · norm_num [avgFractional]

/-- C2: when the snapshot's wait count equals `lastWaitCount`, the window wait
count is zero, lines 38-41 execute no division and leave the average at
exactly zero whatever the window wait duration is, the tick emits that zero,
and the only division the whole tick executes is the one by the constant
`1e6` of line 48. -/
theorem C2_zero_window_count_no_division (st : SamplerState) (dbStats : DBStats)
    (h : dbStats.WaitCount = st.lastWaitCount) :
    (tick st dbStats).lastWindowWaitCount = 0 ∧
    avgWaitPerConnection (tick st dbStats).lastWindowWaitCount
      (tick st dbStats).lastWindowWaitDuration = (Float64.finite 0, []) ∧
    (tick st dbStats).avgWaitPerConnection = Float64.finite 0 ∧
    (tick st dbStats).records.map (fun r => r[5]?) =
      [some (Measurement.float64 Measure.MeasureAvgWaitPerConnection (Float64.finite 0))] ∧
    (tick st dbStats).divisors = [Float64.finite 1000000] := by
  have hwc : sub64 dbStats.WaitCount st.lastWaitCount = 0 := by rw [h, sub64_self]
  have havg : avgWaitPerConnection (sub64 dbStats.WaitCount st.lastWaitCount)
      (sub64 dbStats.WaitDuration st.lastWaitDuration) = (Float64.finite 0, []) := by
    rw [hwc]; simp [avgWaitPerConnection, Float64.zero]
  refine ⟨hwc, havg, ?_, ?_, ?_⟩
  · show (avgWaitPerConnection _ _).1 = _
    rw [havg]
  · show [some (Measurement.float64 Measure.MeasureAvgWaitPerConnection
      (avgWaitPerConnection _ _).1)] = _
    rw [havg]
  · show (avgWaitPerConnection _ _).2 ++ [Float64.e6] = _
    rw [havg]; rfl

theorem C2_zero_window_count_no_division_witness :
    (snapshot 7 250).WaitCount = (SamplerState.mk 7 100).lastWaitCount ∧
    (tick (SamplerState.mk 7 100) (snapshot 7 250)).lastWindowWaitDuration = 150 ∧
    (tick (SamplerState.mk 7 100) (snapshot 7 250)).avgWaitPerConnection = Float64.finite 0 ∧
    (tick (SamplerState.mk 7 100) (snapshot 7 250)).divisors = [Float64.finite 1000000] :=
  ⟨rfl, by decide,
    (C2_zero_window_count_no_division (SamplerState.mk 7 100) (snapshot 7 250) rfl).2.2.1,
    (C2_zero_window_count_no_division (SamplerState.mk 7 100) (snapshot 7 250) rfl).2.2.2.2⟩

/-- C4: from the initial variables, three consecutive ticks over snapshots
with (wait count, wait duration) = (100, 50 ms), (150, 80 ms), (150, 80 ms),
whatever their other fields, emit the averages 0.5, 0.6 and 0. -/
theorem C4_three_tick_scenario (o1 o2 o3 : DBStats) :
    ((ticks SamplerState.init
        [{ o1 with WaitCount := 100, WaitDuration := 50 * Duration.Millisecond },
         { o2 with WaitCount := 150, WaitDuration := 80 * Duration.Millisecond },
         { o3 with WaitCount := 150, WaitDuration := 80 * Duration.Millisecond }]).map
      (fun t => t.records.map (fun r => r[5]?))) =
      [[some (Measurement.float64 Measure.MeasureAvgWaitPerConnection (Float64.finite (1 / 2)))],
       [some (Measurement.float64 Measure.MeasureAvgWaitPerConnection (Float64.finite (3 / 5)))],
       [some (Measurement.float64 Measure.MeasureAvgWaitPerConnection (Float64.finite 0))]] := by
  have h1 : (avgWaitPerConnection (sub64 100 0) (sub64 (50 * Duration.Millisecond) 0)).1
      = Float64.finite (1 / 2) := by
    rw [avgWaitPerConnection_value]
    have e1 : sub64 100 0 = 100 := by decide
    have e2 : sub64 (50 * Duration.Millisecond) 0 = 50000000 := by decide
    have e3 : Int.tdiv 50000000 1000000 = 50 := by decide
    rw [e1, e2]
    simp only [avgReference, e3]
    norm_num
  have h2 : (avgWaitPerConnection (sub64 150 100)
      (sub64 (80 * Duration.Millisecond) (50 * Duration.Millisecond))).1
      = Float64.finite (3 / 5) := by
    rw [avgWaitPerConnection_value]
    have e1 : sub64 150 100 = 50 := by decide
    have e2 : sub64 (80 * Duration.Millisecond) (50 * Duration.Millisecond) = 30000000 := by
      decide
    have e3 : Int.tdiv 30000000 1000000 = 30 := by decide
    rw [e1, e2]
    simp only [avgReference, e3]
    norm_num
  have h3 : (avgWaitPerConnection (sub64 150 150)
      (sub64 (80 * Duration.Millisecond) (80 * Duration.Millisecond))).1
      = Float64.finite 0 := by
    rw [avgWaitPerConnection_value, sub64_self]
    simp [avgReference]
  show [[some (Measurement.float64 Measure.MeasureAvgWaitPerConnection
          (avgWaitPerConnection (sub64 100 0) (sub64 (50 * Duration.Millisecond) 0)).1)],
        [some (Measurement.float64 Measure.MeasureAvgWaitPerConnection
          (avgWaitPerConnection (sub64 150 100)
            (sub64 (80 * Duration.Millisecond) (50 * Duration.Millisecond))).1)],
        [some (Measurement.float64 Measure.MeasureAvgWaitPerConnection
          (avgWaitPerConnection (sub64 150 150)
            (sub64 (80 * Duration.Millisecond) (80 * Duration.Millisecond))).1)]] = _
  rw [h1, h2, h3]

theorem waitDuration_measurement (d : Int) :
    Float64.div (Float64.ofInt64 (Duration.Nanoseconds d)) Float64.e6
      = Float64.finite ((d : ℚ) / 1000000) := by
  simp [Float64.div, Float64.ofInt64, Float64.e6, Duration.Nanoseconds]

/-- C5: for every state and snapshot a tick makes exactly one record call,
of exactly eight measurements in the order open, idle, active (= InUse), wait
count, wait duration (ms), average wait (ms), idle-closed, lifetime-closed;
the handled tick appends exactly that call to the sink; all measurements but
the average are the same from any two states (wait count and wait duration are
the cumulative snapshot values), and the average does depend on the state. -/
theorem C5_one_record_of_eight_measurements (st st' : SamplerState) (dbStats : DBStats)
    (done : Chan) (stopped : Bool) (sink : List (List Measurement)) :
    (tick st dbStats).records =
      [[Measurement.int64 Measure.MeasureOpenConnections dbStats.OpenConnections,
        Measurement.int64 Measure.MeasureIdleConnections dbStats.Idle,
        Measurement.int64 Measure.MeasureActiveConnections dbStats.InUse,
        Measurement.int64 Measure.MeasureWaitCount dbStats.WaitCount,
        Measurement.float64 Measure.MeasureWaitDuration
          (Float64.finite ((dbStats.WaitDuration : ℚ) / 1000000)),
        Measurement.float64 Measure.MeasureAvgWaitPerConnection
          (tick st dbStats).avgWaitPerConnection,
        Measurement.int64 Measure.MeasureIdleClosed dbStats.MaxIdleClosed,
        Measurement.int64 Measure.MeasureLifetimeClosed dbStats.MaxLifetimeClosed]] ∧
    (tick st dbStats).records.map List.length = [8] ∧
    ((Goroutine.handle done
        { phase := Phase.Running, vars := st, tickerStopped := stopped, records := sink }
        (Event.tickerC dbStats)).map Goroutine.records
      = some (sink ++ (tick st dbStats).records)) ∧
    (tick st dbStats).records.map (fun r => r.eraseIdx 5) =
      (tick st' dbStats).records.map (fun r => r.eraseIdx 5) ∧
    (tick (SamplerState.mk 0 0) (snapshot 1 1000000)).avgWaitPerConnection ≠
      (tick (SamplerState.mk 1 0) (snapshot 1 1000000)).avgWaitPerConnection := by
  refine ⟨?_, rfl, rfl, rfl, ?_⟩
  · show [[_, _, _, _, Measurement.float64 Measure.MeasureWaitDuration
        (Float64.div (Float64.ofInt64 (Duration.Nanoseconds dbStats.WaitDuration)) Float64.e6),
        _, _, _]] = _
    rw [waitDuration_measurement]
    rfl
  · have ha : (tick (SamplerState.mk 0 0) (snapshot 1 1000000)).avgWaitPerConnection
        = (avgWaitPerConnection 1 1000000).1 := rfl
    have hb : (tick (SamplerState.mk 1 0) (snapshot 1 1000000)).avgWaitPerConnection
        = (avgWaitPerConnection 0 1000000).1 := rfl
    have e3 : Int.tdiv 1000000 1000000 = 1 := by decide
    rw [ha, hb, avgWaitPerConnection_value, avgWaitPerConnection_value]
    simp [avgReference, e3]

/-- C6: for every state and snapshot the wait-duration measurement of a tick
is the snapshot's cumulative wait duration in nanoseconds divided by
1,000,000, without truncation; a wait duration of 123456789 ns is emitted as
123.456789. -/
theorem C6_wait_duration_fractional_milliseconds (st : SamplerState) (dbStats : DBStats) :
    (tick st dbStats).records.map (fun r => r[4]?) =
      [some (Measurement.float64 Measure.MeasureWaitDuration
        (Float64.finite ((dbStats.WaitDuration : ℚ) / 1000000)))] ∧
    (tick st { dbStats with WaitDuration := 123456789 }).records.map (fun r => r[4]?) =
      [some (Measurement.float64 Measure.MeasureWaitDuration
        (Float64.finite (123.456789 : ℚ)))] := by
  have key : ∀ s : DBStats, (tick st s).records.map (fun r => r[4]?) =
      [some (Measurement.float64 Measure.MeasureWaitDuration
        (Float64.finite ((s.WaitDuration : ℚ) / 1000000)))] := by
    intro s
    show [some (Measurement.float64 Measure.MeasureWaitDuration
        (Float64.div (Float64.ofInt64 (Duration.Nanoseconds s.WaitDuration)) Float64.e6))] = _
    rw [waitDuration_measurement]
  refine ⟨key dbStats, ?_⟩
  rw [key]
  norm_num

/-- C9: the variables start at (0, 0); for every prior state and snapshot the
state after one tick is exactly (snapshot.WaitCount, snapshot.WaitDuration),
the same from any prior state; the window deltas and the emitted average of
that tick are computed from the prior state (computed from the updated
state, both deltas would be zero). -/
theorem C9_state_update (st st' : SamplerState) (dbStats : DBStats) :
    Goroutine.init.vars = SamplerState.mk 0 0 ∧
    (tick st dbStats).state = SamplerState.mk dbStats.WaitCount dbStats.WaitDuration ∧
    (tick st dbStats).state = (tick st' dbStats).state ∧
    (tick st dbStats).lastWindowWaitCount = sub64 dbStats.WaitCount st.lastWaitCount ∧
    (tick st dbStats).lastWindowWaitDuration = sub64 dbStats.WaitDuration st.lastWaitDuration ∧
    (tick st dbStats).records.map (fun r => r[5]?) =
      [some (Measurement.float64 Measure.MeasureAvgWaitPerConnection
        (Float64.finite (avgReference (sub64 dbStats.WaitCount st.lastWaitCount)
          (sub64 dbStats.WaitDuration st.lastWaitDuration))))] ∧
    sub64 dbStats.WaitCount (tick st dbStats).state.lastWaitCount = 0 ∧
    sub64 dbStats.WaitDuration (tick st dbStats).state.lastWaitDuration = 0 := by
  refine ⟨rfl, rfl, rfl, rfl, rfl, ?_, sub64_self _, sub64_self _⟩
  show [some (Measurement.float64 Measure.MeasureAvgWaitPerConnection
      (avgWaitPerConnection _ _).1)] = _
  rw [avgWaitPerConnection_value]

/-- C10: for every state and snapshot the average emitted by a tick equals
the reference definition on the window wait count `wc` and window wait
duration `wd`: whole milliseconds of `wd` (truncated toward zero) divided by
`wc` when `wc > 0`, else 0, also for negative `wc`.  Hence a window with
`wc > 0` and under 1 ms of wait reports 0, and the average is negative exactly
when `wc > 0` and `wd` is at most -1 ms. -/
theorem C10_average_matches_reference (st : SamplerState) (dbStats : DBStats) :
    (tick st dbStats).avgWaitPerConnection =
      Float64.finite (avgReference (sub64 dbStats.WaitCount st.lastWaitCount)
        (sub64 dbStats.WaitDuration st.lastWaitDuration)) ∧
    (tick st dbStats).records.map (fun r => r[5]?) =
      [some (Measurement.float64 Measure.MeasureAvgWaitPerConnection
        (Float64.finite (avgReference (sub64 dbStats.WaitCount st.lastWaitCount)
          (sub64 dbStats.WaitDuration st.lastWaitDuration))))] ∧
    (sub64 dbStats.WaitCount st.lastWaitCount ≤ 0 →
      (tick st dbStats).avgWaitPerConnection = Float64.finite 0) ∧
    (0 < sub64 dbStats.WaitCount st.lastWaitCount →
      -1000000 < sub64 dbStats.WaitDuration st.lastWaitDuration →
      sub64 dbStats.WaitDuration st.lastWaitDuration < 1000000 →
      (tick st dbStats).avgWaitPerConnection = Float64.finite 0) ∧
    (avgReference (sub64 dbStats.WaitCount st.lastWaitCount)
        (sub64 dbStats.WaitDuration st.lastWaitDuration) < 0 ↔
      0 < sub64 dbStats.WaitCount st.lastWaitCount ∧
        sub64 dbStats.WaitDuration st.lastWaitDuration ≤ -1000000) := by
  have hv : (tick st dbStats).avgWaitPerConnection =
      Float64.finite (avgReference (sub64 dbStats.WaitCount st.lastWaitCount)
        (sub64 dbStats.WaitDuration st.lastWaitDuration)) := by
    show (avgWaitPerConnection _ _).1 = _
    rw [avgWaitPerConnection_value]
  generalize sub64 dbStats.WaitCount st.lastWaitCount = wc at hv ⊢
  generalize sub64 dbStats.WaitDuration st.lastWaitDuration = wd at hv ⊢
  refine ⟨hv, ?_, ?_, ?_, ?_⟩
  · show [some (Measurement.float64 Measure.MeasureAvgWaitPerConnection
        (tick st dbStats).avgWaitPerConnection)] = _
    rw [hv]
  · intro h
    rw [hv]
    have : ¬ wc > 0 := by omega
    simp [avgReference, this]
  · intro h0 h1 h2
    rw [hv]
    have hm := milliseconds_eq_zero h1 h2
    unfold Duration.Milliseconds at hm
    simp [avgReference, h0, hm]
  · unfold avgReference
    by_cases h : wc > 0
    · have hq : (0 : ℚ) < (wc : ℚ) := by exact_mod_cast h
      have hm := milliseconds_neg_iff wd
      unfold Duration.Milliseconds at hm
      simp only [h, if_true, true_and]
      rw [div_neg_iff]
      constructor
      · rintro (⟨_, h2⟩ | ⟨h1, _⟩)
        · exact absurd h2 (not_lt.mpr hq.le)
        · exact hm.mp (by exact_mod_cast h1)
      · intro h1
        right
        exact ⟨by exact_mod_cast hm.mpr h1, hq⟩
    · simp [h]

/-! ## Consecutive ticks -/

theorem wrap64_add_wrap64_right (a b : Int) : wrap64 (a + wrap64 b) = wrap64 (a + b) := by
  rw [add_comm, wrap64_add_wrap64, add_comm]

theorem foldl_add64 (l : List Int) (a : Int) :
    l.foldl add64 (wrap64 a) = wrap64 (a + l.sum) := by
  induction l generalizing a with
  | nil => simp
  | cons x l ih =>
    rw [List.foldl_cons, add64, wrap64_add_wrap64, ih, List.sum_cons, add_assoc]

theorem wrap64_sum_windows (rest : List DBStats) (st : SamplerState) (s0 : DBStats) :
    wrap64 (sumWindowWaitCounts (ticks (tick st s0).state rest)) =
      wrap64 (((s0 :: rest).getLast (List.cons_ne_nil s0 rest)).WaitCount - s0.WaitCount) := by
  induction rest generalizing st s0 with
  | nil => simp [ticks, sumWindowWaitCounts]
  | cons s1 r ih =>
    have e : sumWindowWaitCounts (ticks (tick st s0).state (s1 :: r)) =
        sub64 s1.WaitCount s0.WaitCount
          + sumWindowWaitCounts (ticks (tick (tick st s0).state s1).state r) := by
      simp [ticks, sumWindowWaitCounts, tick]
    rw [e, sub64, wrap64_add_wrap64, ← wrap64_add_wrap64_right, ih, wrap64_add_wrap64_right,
      List.getLast_cons (List.cons_ne_nil s1 r)]
    congr 1
    ring

/-- The window wait counts of consecutive ticks, added up in `int64`
arithmetic, give the `int64` difference of the last and the first wait count. -/
theorem sumWindowWaitCounts64_eq (rest : List DBStats) (st : SamplerState) (s0 : DBStats) :
    sumWindowWaitCounts64 (ticks (tick st s0).state rest) =
      sub64 ((s0 :: rest).getLast (List.cons_ne_nil s0 rest)).WaitCount s0.WaitCount := by
  have h := foldl_add64 ((ticks (tick st s0).state rest).map TickResult.lastWindowWaitCount) 0
  have h0 : wrap64 0 = 0 := by decide
  rw [h0, zero_add] at h
  unfold sumWindowWaitCounts64
  rw [h]
  exact wrap64_sum_windows rest st s0

theorem sum_windows_eq (rest : List DBStats) (st : SamplerState) (s0 : DBStats)
    (hmono : List.Chain' DBStats.le (s0 :: rest))
    (hcum : ∀ s ∈ s0 :: rest, s.cumulative) :
    sumWindowWaitCounts (ticks (tick st s0).state rest) =
      ((s0 :: rest).getLast (List.cons_ne_nil s0 rest)).WaitCount - s0.WaitCount := by
  induction rest generalizing st s0 with
  | nil => simp [ticks, sumWindowWaitCounts]
  | cons s1 r ih =>
    have e : sumWindowWaitCounts (ticks (tick st s0).state (s1 :: r)) =
        sub64 s1.WaitCount s0.WaitCount
          + sumWindowWaitCounts (ticks (tick (tick st s0).state s1).state r) := by
      simp [ticks, sumWindowWaitCounts, tick]
    have h01 : DBStats.le s0 s1 := (List.chain'_cons.mp hmono).1
    have hc0 := hcum s0 (List.mem_cons_self _ _)
    have hc1 := hcum s1 (List.mem_cons_of_mem _ (List.mem_cons_self _ _))
    have hsub : sub64 s1.WaitCount s0.WaitCount = s1.WaitCount - s0.WaitCount :=
      sub64_eq_sub hc0.1 h01.1 hc1.2.1
    rw [e, hsub, ih (tick st s0).state s1 (List.chain'_cons.mp hmono).2
      (fun s hs => hcum s (List.mem_cons_of_mem _ hs)),
      List.getLast_cons (List.cons_ne_nil s1 r)]
    ring

/-- C3: for snapshots s[0], s[1], ..., s[N] whose wait count and wait duration
never decrease, processed by consecutive ticks from any state, the window wait
counts computed at the ticks that process s[1]..s[N] sum to
s[N].WaitCount - s[0].WaitCount, sum and difference being taken as Go takes
them on `int64` values; when the snapshots hold cumulative counters
(non-negative `int64` values) nothing wraps and the identity holds between the
integers themselves. -/
theorem C3_window_counts_telescope (st : SamplerState) (s0 : DBStats) (rest : List DBStats)
    (hmono : List.Chain' DBStats.le (s0 :: rest)) :
    sumWindowWaitCounts64 (ticks (tick st s0).state rest) =
      sub64 ((s0 :: rest).getLast (List.cons_ne_nil s0 rest)).WaitCount s0.WaitCount ∧
    ((∀ s ∈ s0 :: rest, s.cumulative) →
      sumWindowWaitCounts (ticks (tick st s0).state rest) =
        ((s0 :: rest).getLast (List.cons_ne_nil s0 rest)).WaitCount - s0.WaitCount) :=
  ⟨sumWindowWaitCounts64_eq rest st s0, fun hcum => sum_windows_eq rest st s0 hmono hcum⟩

theorem C3_window_counts_telescope_witness :
    List.Chain' DBStats.le
      [snapshot 100 50000000, snapshot 150 80000000, snapshot 150 80000000,
        snapshot 175 90000000] ∧
    sumWindowWaitCounts64
        (ticks (tick SamplerState.init (snapshot 100 50000000)).state
          [snapshot 150 80000000, snapshot 150 80000000, snapshot 175 90000000]) = 75 ∧
    sumWindowWaitCounts
        (ticks (tick SamplerState.init (snapshot 100 50000000)).state
          [snapshot 150 80000000, snapshot 150 80000000, snapshot 175 90000000]) = 175 - 100 :=
  ⟨by simp [DBStats.le, snapshot],
    (C3_window_counts_telescope SamplerState.init (snapshot 100 50000000)
      [snapshot 150 80000000, snapshot 150 80000000, snapshot 175 90000000]
      (by simp [DBStats.le, snapshot])).1.trans (by decide),
    (C3_window_counts_telescope SamplerState.init (snapshot 100 50000000)
      [snapshot 150 80000000, snapshot 150 80000000, snapshot 175 90000000]
      (by simp [DBStats.le, snapshot])).2 (by decide)⟩

/-! ## Stopping -/

theorem fnStop_of_once_done (s : StopState) (h : s.closeOnce.done = true) :
    fnStop s = Except.ok s := by
  obtain ⟨⟨d⟩, ch⟩ := s
  simp only at h
  subst h
  rfl

theorem fnStopTimes_of_once_done (n : Nat) (s : StopState) (h : s.closeOnce.done = true) :
    fnStopTimes n s = Except.ok s := by
  induction n with
  | zero => rfl
  | succ k ih => simp only [fnStopTimes, fnStop_of_once_done s h, ih]

/-- C7: the first invocation of the stop function closes `done` (one close
executed, no panic); an invocation in the resulting state returns that state
unchanged without a panic; hence for every n >= 1, n invocations in sequence
end without a panic in the state one invocation ends in, with `done` closed
exactly once. -/
theorem C7_stop_idempotent (n : Nat) (h : 1 ≤ n) :
    fnStop StopState.init =
      Except.ok { closeOnce := { done := true }, done := { closed := true, closes := 1 } } ∧
    fnStop { closeOnce := { done := true }, done := { closed := true, closes := 1 } } =
      Except.ok { closeOnce := { done := true }, done := { closed := true, closes := 1 } } ∧
    fnStopTimes n StopState.init =
      Except.ok { closeOnce := { done := true }, done := { closed := true, closes := 1 } } ∧
    fnStopTimes n StopState.init = fnStopTimes 1 StopState.init := by
  have h1 : fnStop StopState.init =
      Except.ok { closeOnce := { done := true }, done := { closed := true, closes := 1 } } := rfl
  have hn : fnStopTimes n StopState.init =
      Except.ok { closeOnce := { done := true }, done := { closed := true, closes := 1 } } := by
    obtain ⟨k, rfl⟩ : ∃ k, n = k + 1 := ⟨n - 1, by omega⟩
    simp only [fnStopTimes, h1]
    exact fnStopTimes_of_once_done k _ rfl
  exact ⟨h1, rfl, hn, by rw [hn]; rfl⟩

theorem C7_stop_idempotent_witness :
    fnStopTimes 3 StopState.init =
      Except.ok { closeOnce := { done := true }, done := { closed := true, closes := 1 } } :=
  (C7_stop_idempotent 3 (by decide)).2.2.1

theorem handle_stopped (done : Chan) (g : Goroutine) (ev : Event)
    (h : g.phase = Phase.Stopped) : g.handle done ev = none := by
  simp [Goroutine.handle, h]

theorem handle_done (done : Chan) (g g' : Goroutine)
    (h : g.handle done Event.done = some g') :
    done.closed = true ∧ g.phase = Phase.Running ∧
      g' = { g with phase := Phase.Stopped, tickerStopped := true } := by
  unfold Goroutine.handle at h
  cases hp : g.phase with
  | Stopped => simp [hp] at h
  | Running =>
    simp only [hp] at h
    by_cases hc : done.closed = true
    · simp only [hc, if_true, Option.some.injEq] at h
      exact ⟨hc, rfl, h.symm⟩
    · simp [hc] at h

theorem reaches_of_stopped (s s' : Sampler) (h : s.loop.phase = Phase.Stopped)
    (hr : Reaches s s') : s'.loop = s.loop := by
  induction hr with
  | refl => rfl
  | tail _ hstep ih =>
    cases hstep with
    | callStop st _ => exact ih
    | select ev g hh =>
      rw [handle_stopped _ _ _ (by rw [ih]; exact h)] at hh
      exact absurd hh (by simp)

/-- C8: when the loop handles the stop signal in a state `s` (giving the
goroutine `g`), `done` is closed, `g` is Stopped with the variables and the
record list of `s` (no tick is performed) and the ticker stopped; no event can
be handled in `g`; in every state `s2` reachable afterwards the goroutine is
still `g`, so the record list is that of `s`; and when `s` has no record yet,
no state reachable afterwards has one. -/
theorem C8_stopped_is_terminal (s s2 : Sampler) (g : Goroutine)
    (h : s.loop.handle s.stop.done Event.done = some g)
    (hr : Reaches { s with loop := g } s2) :
    s.stop.done.closed = true ∧
    g.phase = Phase.Stopped ∧ g.vars = s.loop.vars ∧ g.records = s.loop.records ∧
    g.tickerStopped = true ∧
    (∀ (done : Chan) (ev : Event), g.handle done ev = none) ∧
    (∀ s3 : Sampler, Step { s with loop := g } s3 → s3.loop = g) ∧
    s2.loop = g ∧ s2.loop.records = s.loop.records ∧
    (s.loop.records = [] → s2.loop.records = []) := by
  obtain ⟨hc, _, hg⟩ := handle_done _ _ _ h
  have hph : g.phase = Phase.Stopped := by rw [hg]
  have h2 : s2.loop = g := reaches_of_stopped _ _ hph hr
  have hrec : g.records = s.loop.records := by rw [hg]
  refine ⟨hc, hph, by rw [hg], hrec, by rw [hg], fun d ev => handle_stopped d g ev hph,
    fun s3 hs => reaches_of_stopped _ _ hph (Relation.ReflTransGen.single hs),
    h2, by rw [h2, hrec], fun h0 => by rw [h2, hrec, h0]⟩

theorem C8_stopped_is_terminal_witness :
    Goroutine.handle { closed := true, closes := 1 } Goroutine.init Event.done =
      some { Goroutine.init with phase := Phase.Stopped, tickerStopped := true } ∧
    Reaches
      { stop := { closeOnce := { done := true }, done := { closed := true, closes := 1 } },
        loop := { Goroutine.init with phase := Phase.Stopped, tickerStopped := true } }
      { stop := { closeOnce := { done := true }, done := { closed := true, closes := 1 } },
        loop := { Goroutine.init with phase := Phase.Stopped, tickerStopped := true } } ∧
    ({ Goroutine.init with phase := Phase.Stopped, tickerStopped := true } : Goroutine).records
      = [] :=
  ⟨rfl,
    Relation.ReflTransGen.single
      (Step.callStop
        { stop := { closeOnce := { done := true }, done := { closed := true, closes := 1 } },
          loop := { Goroutine.init with phase := Phase.Stopped, tickerStopped := true } }
        { closeOnce := { done := true }, done := { closed := true, closes := 1 } } rfl),
    (C8_stopped_is_terminal
      { stop := { closeOnce := { done := true }, done := { closed := true, closes := 1 } },
        loop := Goroutine.init }
      { stop := { closeOnce := { done := true }, done := { closed := true, closes := 1 } },
        loop := { Goroutine.init with phase := Phase.Stopped, tickerStopped := true } }
      { Goroutine.init with phase := Phase.Stopped, tickerStopped := true } rfl
      (Relation.ReflTransGen.single
        (Step.callStop
          { stop := { closeOnce := { done := true }, done := { closed := true, closes := 1 } },
            loop := { Goroutine.init with phase := Phase.Stopped, tickerStopped := true } }
          { closeOnce := { done := true }, done := { closed := true, closes := 1 } }
          rfl))).2.2.2.2.2.2.2.2.2
      rfl⟩

end Ocsql
